import Mathlib

/-!
Verification of the resilient data-synchronization layer of the
`dazterdaz/replitar` consent-management application.

The definitions below are a shallow embedding of the TypeScript source
(the provider in `ConsentimientosContext` together with the supabase
helper module): the two-tier TTL cache (`cacheData` / `getCachedData`),
the debounced connectivity check (`checkSupabaseConnection`), the load
orchestrator (`loadConsentimientos`) with its realtime / online /
visibility / scheduled-retry triggers, and the write operations
(`addConsentimiento`, `archivarConsentimiento`).

Conventions: times are Unix milliseconds modelled as `Nat`;
`Math.random()` samples are explicit rational parameters; network and
backend outcomes are explicit oracle values threaded through environment
records, so every definition is executable on concrete inputs.
-/

namespace Replitar

/-! ### Two-tier cache (supabase module, cacheData / getCachedData) -/

/-- `CacheItem<T>`: `{ data, timestamp, expiry }`.  The application only
ever caches arrays (lists), and the write guard keeps stored arrays
non-empty, so `data` is a `List α` here. -/
structure CacheItem (α : Type) where
  data : List α
  timestamp : Nat
  expiry : Nat
deriving DecidableEq, Repr

/-- The two cache tiers: `dataCache` (the in-memory `Map`) and
`localStorage` (keys shown without the `cache_` namespacing marker).
Both are association lists keyed by strings. -/
structure CacheState (α : Type) where
  mem : List (String × CacheItem α)
  ls : List (String × CacheItem α)
deriving DecidableEq, Repr

/-- First entry stored under key `k` (JS `Map.get` / `localStorage.getItem`). -/
def lookupKey {α : Type} (l : List (String × CacheItem α)) (k : String) :
    Option (CacheItem α) :=
  (l.find? (fun p => p.1 == k)).map (fun p => p.2)

/-- Replace-or-append update (JS `Map.set` / `localStorage.setItem`). -/
def setKey {α : Type} : List (String × CacheItem α) → String → CacheItem α →
    List (String × CacheItem α)
  | [], k, v => [(k, v)]
  | (k', v') :: rest, k, v =>
      if k' = k then (k, v) :: rest else (k', v') :: setKey rest k v

/-- Key removal (JS `Map.delete` / `localStorage.removeItem`). -/
def delKey {α : Type} : List (String × CacheItem α) → String →
    List (String × CacheItem α)
  | [], _ => []
  | (k', v') :: rest, k =>
      if k' = k then delKey rest k else (k', v') :: delKey rest k

def emptyCache {α : Type} : CacheState α := ⟨[], []⟩

/-- `cacheData(key, data, ttlSeconds)`.  `data` is `none` for `null` and
`some l` for the array `l`; the guard skips `null` and empty arrays,
otherwise the same `{data, timestamp, expiry}` entry is written to both
tiers (the `localStorage` write is modelled as succeeding; its
quota-failure is caught and only logged in the source). -/
def cacheData {α : Type} (c : CacheState α) (key : String)
    (data : Option (List α)) (ttlSeconds : Nat) (now : Nat) : CacheState α :=
  match data with
  | none => c
  | some [] => c
  | some (x :: xs) =>
      let item : CacheItem α := ⟨x :: xs, now, now + ttlSeconds * 1000⟩
      ⟨setKey c.mem key item, setKey c.ls key item⟩

/-- `localStorage` leg of `getCachedData`: a fresh durable hit is
rehydrated into the memory tier; an expired durable entry is purged from
`localStorage` (the expired memory entry, if any, is left in place, as in
the source). -/
def getFromLS {α : Type} (c : CacheState α) (key : String) (now : Nat) :
    Option (List α) × CacheState α :=
  match lookupKey c.ls key with
  | some item =>
      if now ≤ item.expiry then
        (some item.data, ⟨setKey c.mem key item, c.ls⟩)
      else
        (none, ⟨c.mem, delKey c.ls key⟩)
  | none => (none, c)

/-- `getCachedData(key)`: memory tier first (`now <= item.expiry` is a
hit), then the `localStorage` tier via `getFromLS`.  Returns the value
(`none` is a miss) together with the possibly mutated cache state. -/
def getCachedData {α : Type} (c : CacheState α) (key : String) (now : Nat) :
    Option (List α) × CacheState α :=
  match lookupKey c.mem key with
  | some item =>
      if now ≤ item.expiry then (some item.data, c)
      else getFromLS c key now
  | none => getFromLS c key now

theorem lookupKey_setKey {α : Type} (l : List (String × CacheItem α))
    (k : String) (v : CacheItem α) : lookupKey (setKey l k v) k = some v := by
  induction l with
  | nil => simp [setKey, lookupKey]
  | cons p rest ih =>
      obtain ⟨k', v'⟩ := p
      by_cases h : k' = k
      · simp [setKey, h, lookupKey]
      · simpa [setKey, h, lookupKey, List.find?] using ih

/-- C7: for every key holding a previously stored good entry, calling
`cacheData` with `null` or empty data is a no-op: the cache state — and
in particular the previously stored entry under that key, in both the
in-memory tier and the durable tier — is unchanged, and any later read
under the key sees exactly what it saw before. -/
theorem C7_set_empty_is_noop {α : Type} (c : CacheState α) (key : String)
    (data : Option (List α)) (ttl now : Nat)
    (h : data = none ∨ data = some []) :
    cacheData c key data ttl now = c ∧
    ∀ k' t, getCachedData (cacheData c key data ttl now) k' t =
      getCachedData c k' t := by
  rcases h with h | h <;> subst h <;> exact ⟨rfl, fun _ _ => rfl⟩

theorem C7_witness :
    ((some ([] : List Nat) = none ∨ some ([] : List Nat) = some []) ∧
      cacheData (cacheData (emptyCache (α := Nat)) "k" (some [7]) 100 0)
        "k" (some []) 100 50 =
        cacheData (emptyCache (α := Nat)) "k" (some [7]) 100 0) :=
  ⟨Or.inr rfl,
    (C7_set_empty_is_noop
      (cacheData (emptyCache (α := Nat)) "k" (some [7]) 100 0)
      "k" (some []) 100 50 (Or.inr rfl)).1⟩

/-- C8: for every key and non-empty (non-null) value, `cacheData` followed
by `getCachedData` at or before the expiry instant returns the identical
stored value, and `getCachedData` after the expiry instant returns a miss
(`none`). -/
theorem C8_set_then_get {α : Type} (c : CacheState α) (key : String)
    (x : α) (xs : List α) (ttl now t : Nat) :
    (t ≤ now + ttl * 1000 →
      (getCachedData (cacheData c key (some (x :: xs)) ttl now) key t).1 =
        some (x :: xs)) ∧
    (now + ttl * 1000 < t →
      (getCachedData (cacheData c key (some (x :: xs)) ttl now) key t).1 =
        none) := by
  constructor
  · intro hle
    simp [cacheData, getCachedData, lookupKey_setKey, hle]
  · intro hgt
    simp [cacheData, getCachedData, getFromLS, lookupKey_setKey,
      Nat.not_le.mpr hgt]

theorem C8_witness :
    ((getCachedData (cacheData (emptyCache (α := Nat)) "k" (some [3, 4]) 1 0)
        "k" 500).1 = some [3, 4] ∧
      (getCachedData (cacheData (emptyCache (α := Nat)) "k" (some [3, 4]) 1 0)
        "k" 2000).1 = none) :=
  ⟨(C8_set_then_get (emptyCache (α := Nat)) "k" 3 [4] 1 0 500).1 (by decide),
    (C8_set_then_get (emptyCache (α := Nat)) "k" 3 [4] 1 0 2000).2 (by decide)⟩

/-! ### Connectivity (supabase module: isOfflineMode, checkInternetConnection,
checkSupabaseConnection) -/

/-- Module-level connectivity state: the two `localStorage` flags
(`app_offline_mode`, `app_network_unreachable`) and the module variable
`lastConnectionStatus = { isConnected, timestamp }`. -/
structure ConnState where
  offlineMode : Bool
  networkUnreachable : Bool
  lastConnected : Bool
  lastTimestamp : Nat
deriving DecidableEq, Repr

/-- `isOfflineMode()`: either `localStorage` flag forces offline mode. -/
def isOfflineMode (cs : ConnState) : Bool :=
  cs.offlineMode || cs.networkUnreachable

/-- Outcome of one supabase health-probe attempt inside
`checkSupabaseConnection`: the lightweight `config` count query either
returns without error (`ok`), returns a supabase error object
(`remoteError` — the loop returns `false` without retrying), or throws
(`exc` — timeout/network exception, the loop backs off and retries). -/
inductive ProbeAttempt where
  | ok
  | remoteError
  | exc
deriving DecidableEq, Repr

/-- Network-side oracle for one `checkSupabaseConnection` run:
`internet i` is the reachability outcome of the `i`-th test URL
(the source tries three), `probes i` is the outcome of the `i`-th
backend probe attempt. -/
structure ConnEnv where
  internet : List Bool
  probes : Nat → ProbeAttempt

/-- `checkInternetConnection()`: HEAD requests against the test URLs in
order, succeeding on the first responder; returns the boolean together
with the number of network requests issued. -/
def checkInternetConnection : List Bool → Bool × Nat
  | [] => (false, 0)
  | b :: rest =>
      if b then (true, 1)
      else
        let r := checkInternetConnection rest
        (r.1, r.2 + 1)

/-- Result of the backend-probe retry loop: connected, an immediate
supabase-error return, or exhaustion of all attempts; each carries the
number of probe requests issued. -/
inductive ProbeOutcome where
  | connected (calls : Nat)
  | remoteFail (calls : Nat)
  | exhausted (calls : Nat)
deriving DecidableEq, Repr

/-- The `while (currentRetry < maxRetries)` probe loop of
`checkSupabaseConnection`, `i` the current attempt index and the second
argument the remaining attempts.  An `ok` ends the loop connected; a
supabase error object makes the loop return `false` at once (no retry);
an exception consumes an attempt and retries after backoff (the sleep
itself does not affect the outcome and is not modelled). -/
def probeFrom (probes : Nat → ProbeAttempt) : Nat → Nat → ProbeOutcome
  | _, 0 => .exhausted 0
  | i, rem + 1 =>
      match probes i with
      | .ok => .connected 1
      | .remoteError => .remoteFail 1
      | .exc =>
          match probeFrom probes (i + 1) rem with
          | .connected n => .connected (n + 1)
          | .remoteFail n => .remoteFail (n + 1)
          | .exhausted n => .exhausted (n + 1)

/-- Result of `checkSupabaseConnection`: the boolean it resolves to, the
updated module/flag state, and the number of network requests issued. -/
structure ConnResult where
  connected : Bool
  st : ConnState
  netCalls : Nat
deriving Repr

/-- `RETRY_SETTINGS.maxRetries` of the supabase module. -/
def RETRY_SETTINGS_maxRetries : Nat := 10

/-- `checkSupabaseConnection()`.  In source order: (1) if the previous
result is younger than the 10s debounce TTL, return it with no network
activity; (2) if `isOfflineMode()`, record and return `false` with no
network activity; (3) general internet reachability via
`checkInternetConnection`, failure setting `app_network_unreachable`;
(4) the backend probe loop — success clears both offline flags and
records `true`; an error response records `false`; exhaustion sets
`app_network_unreachable` and records `false`. -/
def checkSupabaseConnection (env : ConnEnv) (now : Nat) (cs : ConnState) :
    ConnResult :=
  if now - cs.lastTimestamp < 10000 then
    ⟨cs.lastConnected, cs, 0⟩
  else if isOfflineMode cs then
    ⟨false, { cs with lastConnected := false, lastTimestamp := now }, 0⟩
  else
    let inet := checkInternetConnection env.internet
    if !inet.1 then
      ⟨false,
        { cs with networkUnreachable := true, lastConnected := false,
                  lastTimestamp := now }, inet.2⟩
    else
      match probeFrom env.probes 0 RETRY_SETTINGS_maxRetries with
      | .connected n =>
          ⟨true,
            { offlineMode := false, networkUnreachable := false,
              lastConnected := true, lastTimestamp := now }, inet.2 + n⟩
      | .remoteFail n =>
          ⟨false,
            { cs with lastConnected := false, lastTimestamp := now },
            inet.2 + n⟩
      | .exhausted n =>
          ⟨false,
            { cs with networkUnreachable := true, lastConnected := false,
                      lastTimestamp := now }, inet.2 + n⟩

/-! ### Exponential backoff with jitter (provider, getRetryDelay) -/

/-- `getRetryDelay(attempt)` with the `Math.random()` sample `r` made
explicit: `floor(min(120000, 3000 * 2^attempt) * (1 + 0.3 * (2r - 1)))`
milliseconds. -/
def getRetryDelay (attempt : Nat) (r : ℚ) : ℤ :=
  let baseDelay : ℚ := 3000
  let maxDelay : ℚ := 120000
  let expBackoff : ℚ := min maxDelay (baseDelay * 2 ^ attempt)
  let jitter : ℚ := expBackoff * (3 / 10) * (r * 2 - 1)
  ⌊expBackoff + jitter⌋

/-- The un-jittered delay `min(cap, base * 2^attempt)` in milliseconds. -/
def expBackoffMs (attempt : Nat) : Nat := min 120000 (3000 * 2 ^ attempt)

/-- A connectivity state in which the offline override is set while the
previous (positive) probe result is still inside the 10s debounce TTL at
time 5000. -/
def csOfflineFresh : ConnState :=
  { offlineMode := true, networkUnreachable := false,
    lastConnected := true, lastTimestamp := 1000 }

/-- A network oracle on which every request would fail (irrelevant for
runs that never reach the network). -/
def envAllFail : ConnEnv := ⟨[false, false, false], fun _ => .exc⟩

/-- C2 counterexample: with the offline-mode override set but a previous
`true` connectivity result still inside the 10s debounce TTL,
`checkSupabaseConnection` returns the cached `true`, not `false` — the
TTL short-circuit precedes the offline-mode test in the source.  (The
zero-network-calls part does hold.) -/
theorem C2_counterexample :
    isOfflineMode csOfflineFresh = true ∧
    (checkSupabaseConnection envAllFail 5000 csOfflineFresh).connected = true ∧
    (checkSupabaseConnection envAllFail 5000 csOfflineFresh).netCalls = 0 :=
  ⟨rfl, rfl, rfl⟩

/-- C2 (amended): when the offline-mode override is set,
`checkSupabaseConnection` performs zero network calls; it returns `false`
whenever the previous result is outside the 10s debounce TTL, but inside
the TTL it returns the cached boolean (which may be `true`). -/
theorem C2_offline_mode_check (env : ConnEnv) (now : Nat) (cs : ConnState)
    (h : isOfflineMode cs = true) :
    (checkSupabaseConnection env now cs).netCalls = 0 ∧
    (¬ now - cs.lastTimestamp < 10000 →
      (checkSupabaseConnection env now cs).connected = false) ∧
    (now - cs.lastTimestamp < 10000 →
      (checkSupabaseConnection env now cs).connected = cs.lastConnected) := by
  unfold checkSupabaseConnection
  by_cases hd : now - cs.lastTimestamp < 10000
  · simp [hd]
  · simp [hd, h]

theorem C2_witness :
    isOfflineMode ⟨true, false, false, 0⟩ = true ∧
    (checkSupabaseConnection envAllFail 20000 ⟨true, false, false, 0⟩).netCalls = 0 ∧
    (checkSupabaseConnection envAllFail 20000 ⟨true, false, false, 0⟩).connected = false :=
  ⟨rfl, (C2_offline_mode_check envAllFail 20000 ⟨true, false, false, 0⟩ rfl).1,
    (C2_offline_mode_check envAllFail 20000 ⟨true, false, false, 0⟩ rfl).2.1
      (by decide)⟩

theorem ten_dvd_expBackoffMs (a : Nat) : 10 ∣ expBackoffMs a := by
  unfold expBackoffMs
  rw [Nat.min_def]
  split
  · exact ⟨12000, rfl⟩
  · exact ⟨300 * 2 ^ a, by ring⟩

theorem expBackoffMs_cast (a : Nat) :
    ((expBackoffMs a : Nat) : ℚ) = min (120000 : ℚ) (3000 * 2 ^ a) := by
  unfold expBackoffMs
  push_cast
  norm_num

theorem getRetryDelay_eq (a : Nat) (r : ℚ) :
    getRetryDelay a r =
      ⌊(expBackoffMs a : ℚ) * (1 + (3 / 10) * (r * 2 - 1))⌋ := by
  simp only [getRetryDelay]
  rw [expBackoffMs_cast]
  congr 1
  ring

theorem getRetryDelay_lower (a : Nat) (r : ℚ) (h0 : 0 ≤ r) :
    ((7 : ℚ) / 10) * (expBackoffMs a) ≤ (getRetryDelay a r : ℚ) := by
  obtain ⟨k, hk⟩ := ten_dvd_expBackoffMs a
  have hE : ((expBackoffMs a : Nat) : ℚ) = 10 * (k : ℚ) := by
    rw [hk]; push_cast; ring
  have hk0 : (0 : ℚ) ≤ (k : ℚ) := Nat.cast_nonneg k
  have hfl : (7 * (k : ℤ)) ≤ getRetryDelay a r := by
    rw [getRetryDelay_eq]
    apply Int.le_floor.mpr
    rw [hE]
    push_cast
    nlinarith
  calc ((7 : ℚ) / 10) * (expBackoffMs a) = ((7 * (k : ℤ) : ℤ) : ℚ) := by
        rw [hE]; push_cast; ring
    _ ≤ (getRetryDelay a r : ℚ) := by exact_mod_cast hfl

theorem getRetryDelay_upper (a : Nat) (r : ℚ) (h1 : r ≤ 1) :
    (getRetryDelay a r : ℚ) ≤ ((13 : ℚ) / 10) * (expBackoffMs a) := by
  rw [getRetryDelay_eq]
  have hfl := Int.floor_le ((expBackoffMs a : ℚ) * (1 + (3 / 10) * (r * 2 - 1)))
  have hE0 : (0 : ℚ) ≤ ((expBackoffMs a : Nat) : ℚ) := Nat.cast_nonneg _
  nlinarith

theorem expBackoffMs_uncapped {a : Nat} (h : 3000 * 2 ^ a ≤ 120000) :
    expBackoffMs a = 3000 * 2 ^ a :=
  Nat.min_eq_right h

/-- C6 (amended): every realized delay lies within ±30% (inclusive) of
`min(cap, base·2^attempt)` with base 3s and cap 120s, and the realized
delays are non-decreasing across consecutive attempts whose un-jittered
delays are both still uncapped (`base·2^(attempt+1) ≤ cap`); at the step
which first reaches the cap, and beyond it, consecutive realized delays
may decrease by the jitter spread. -/
theorem C6_backoff_delay (a : Nat) (r r' : ℚ)
    (h0 : 0 ≤ r) (h1 : r < 1) (h0' : 0 ≤ r') (_h1' : r' < 1) :
    ((7 : ℚ) / 10) * (expBackoffMs a) ≤ (getRetryDelay a r : ℚ) ∧
    (getRetryDelay a r : ℚ) ≤ ((13 : ℚ) / 10) * (expBackoffMs a) ∧
    (3000 * 2 ^ (a + 1) ≤ 120000 →
      getRetryDelay a r ≤ getRetryDelay (a + 1) r') := by
  refine ⟨getRetryDelay_lower a r h0, getRetryDelay_upper a r h1.le, ?_⟩
  intro hcap
  have ha : 3000 * 2 ^ a ≤ 120000 :=
    le_trans (Nat.mul_le_mul_left 3000
      (Nat.pow_le_pow_right (by norm_num) (Nat.le_succ a))) hcap
  have hEa := expBackoffMs_uncapped ha
  have hEb := expBackoffMs_uncapped hcap
  have hdouble : ((expBackoffMs (a + 1) : Nat) : ℚ) =
      2 * ((expBackoffMs a : Nat) : ℚ) := by
    rw [hEa, hEb]; push_cast; ring
  have hu : (getRetryDelay a r : ℚ) ≤ ((13 : ℚ) / 10) * (expBackoffMs a) :=
    getRetryDelay_upper a r h1.le
  have hl : ((7 : ℚ) / 10) * (expBackoffMs (a + 1)) ≤
      (getRetryDelay (a + 1) r' : ℚ) := getRetryDelay_lower (a + 1) r' h0'
  have hE0 : (0 : ℚ) ≤ ((expBackoffMs a : Nat) : ℚ) := Nat.cast_nonneg _
  have hq : (getRetryDelay a r : ℚ) ≤ (getRetryDelay (a + 1) r' : ℚ) := by
    rw [hdouble] at hl
    nlinarith
  exact_mod_cast hq

theorem C6_witness :
    ((0 : ℚ) ≤ 0 ∧ (0 : ℚ) < 1) ∧
    (((7 : ℚ) / 10) * (expBackoffMs 2) ≤ (getRetryDelay 2 0 : ℚ) ∧
      (getRetryDelay 2 0 : ℚ) ≤ ((13 : ℚ) / 10) * (expBackoffMs 2) ∧
      (3000 * 2 ^ (2 + 1) ≤ 120000 →
        getRetryDelay 2 0 ≤ getRetryDelay (2 + 1) 0)) :=
  ⟨⟨le_refl 0, zero_lt_one⟩,
    C6_backoff_delay 2 0 0 (le_refl 0) zero_lt_one (le_refl 0) zero_lt_one⟩

/-- C6 counterexample: at the step where the un-jittered delay first
reaches the 120s cap (attempt 5 → attempt 6) the realized delay can
decrease: with the valid random samples 1/2 and 0, the attempt-6 delay
(84000 ms) is strictly below the attempt-5 delay (96000 ms), so the
realized delay sequence is not non-decreasing up to the cap. -/
theorem C6_counterexample :
    (0 : ℚ) ≤ 1 / 2 ∧ (1 / 2 : ℚ) < 1 ∧ (0 : ℚ) ≤ 0 ∧ (0 : ℚ) < 1 ∧
    getRetryDelay 6 0 < getRetryDelay 5 (1 / 2) := by
  refine ⟨by norm_num, by norm_num, le_refl 0, zero_lt_one, ?_⟩
  have h6 : getRetryDelay 6 0 = 84000 := by
    rw [getRetryDelay_eq]
    norm_num [expBackoffMs]
  have h5 : getRetryDelay 5 (1 / 2) = 96000 := by
    rw [getRetryDelay_eq]
    norm_num [expBackoffMs]
  rw [h5, h6]
  norm_num

/-! ### Domain model (Consentimiento and the row transformation) -/

/-- The `client_info` JSON blob copied by `transformarDatos`. -/
structure ClientInfo where
  nombre : String
  apellidos : String
  edad : Nat
  rut : String
  fechaNacimiento : String
  direccion : String
  telefono : String
  email : String
  confirmacionDatos : Bool
  informacionSalud : Option String
deriving DecidableEq, Repr

/-- The optional `tutor_info` JSON blob. -/
structure TutorInfo where
  nombre : String
  rut : String
  parentesco : String
  otroParentesco : String
  firma : String
deriving DecidableEq, Repr

/-- The application-side `Consentimiento` record (the fields produced by
`transformarDatos` and consumed by the provider). -/
structure Consentimiento where
  id : String
  codigo : String
  fechaCreacion : String
  cliente : ClientInfo
  tutor : Option TutorInfo
  informacionSalud : String
  artistaSeleccionado : String
  firma : String
  archivado : Bool
deriving DecidableEq, Repr

/-- A raw row of the remote `consents` query.  `client_info` is `none`
when the column is `null`, in which case the per-row transformation
dereferences `null`, throws, and the row is dropped. -/
structure RawRow where
  id : String
  code : String
  created_at : String
  client_info : Option ClientInfo
  tutor_info : Option TutorInfo
  artistName : Option String
  client_signature : String
  archived : Bool
deriving DecidableEq, Repr

/-- The per-row body of `transformarDatos`: the mapping wrapped in
`try/catch`, yielding `none` (later filtered out) when the row is
malformed — here, when `client_info` is `null` so that reading
`clientInfo.nombre` throws. -/
def transformarItem (item : RawRow) : Option Consentimiento :=
  match item.client_info with
  | none => none
  | some clientInfo =>
      some
        { id := item.id
          codigo := item.code
          fechaCreacion := item.created_at
          cliente := clientInfo
          tutor := item.tutor_info
          informacionSalud := clientInfo.informacionSalud.getD ""
          artistaSeleccionado := item.artistName.getD ""
          firma := item.client_signature
          archivado := item.archived }

/-- `transformarDatos(data)`: `[]` for a `null` payload, otherwise the
per-row transformation with malformed rows filtered out. -/
def transformarDatos : Option (List RawRow) → List Consentimiento
  | none => []
  | some l => l.filterMap transformarItem

/-! ### Provider state and the load orchestrator (loadConsentimientos) -/

/-- Cache keys and TTL of the provider. -/
def CONSENT_CACHE_KEY : String := "app_consents_data"

def ARCHIVED_CONSENT_CACHE_KEY : String := "app_archived_consents_data"

def CONSENT_CACHE_TTL : Nat := 172800

def MAX_RETRIES : Nat := 15

/-- The React state owned by `ConsentimientosProvider`, together with the
supabase-module connectivity state, the cache tiers, and the multiset of
pending background-retry timers (the delays passed to `setTimeout`),
which the source never stores handles for. -/
structure ProviderState where
  consentimientos : List Consentimiento
  consentimientosArchivados : List Consentimiento
  loading : Bool
  connectionError : Bool
  retryCount : Nat
  lastConnectionAttempt : Option Nat
  isRetrying : Bool
  cache : CacheState Consentimiento
  conn : ConnState
  pendingTimers : List ℤ
deriving DecidableEq, Repr

/-- Outcome of one remote `consents` select: rows, a supabase error
object, or an `AbortError` from the 60s timeout. -/
inductive FetchResult where
  | rows (data : List RawRow)
  | err (message : String)
  | abort
deriving DecidableEq, Repr

/-- The errors a load cycle can log (nothing is rethrown to the caller:
the outer catch of `loadConsentimientos` swallows them). -/
inductive LoadError where
  | activesTimeout
  | remoteActives (message : String)
  | remoteArchived (message : String)
  | referenceError
deriving DecidableEq, Repr

/-- Environment of one `loadConsentimientos` run: the clock, the
connectivity oracle, whether the connectivity check loses the 60s
`Promise.race` (`connSlow`), the `Math.random()` sample used for a
possible backoff delay, and the outcomes of the two fetch legs. -/
structure LoadEnv where
  now : Nat
  connEnv : ConnEnv
  connSlow : Bool
  rand : ℚ
  actives : FetchResult
  archived : FetchResult

/-- Result of a `loadConsentimientos` run: the post state, whether the
call passed the single-in-flight guard, and the error reaching the outer
catch (logged, never rethrown). -/
structure LoadResult where
  st : ProviderState
  started : Bool
  logged : Option LoadError
deriving DecidableEq, Repr

/-- The `if (v?.length > 0) setX(v)` pattern: publish a cached list only
when it is present and non-empty, otherwise keep the current value. -/
def publishIfNonempty {α : Type} (v : Option (List α)) (cur : List α) :
    List α :=
  match v with
  | some (x :: xs) => x :: xs
  | _ => cur

/-- Lines 88–98: read both cache keys and, when non-empty, publish the
cached snapshots immediately (stale-while-revalidate). -/
def serveCachedSnapshots (now : Nat) (s : ProviderState) : ProviderState :=
  let a := getCachedData s.cache CONSENT_CACHE_KEY now
  let b := getCachedData a.2 ARCHIVED_CONSENT_CACHE_KEY now
  { s with cache := b.2,
           consentimientos := publishIfNonempty a.1 s.consentimientos,
           consentimientosArchivados :=
             publishIfNonempty b.1 s.consentimientosArchivados }

/-- The outer catch of `loadConsentimientos` (lines 299–315): log the
error, set the connection-error flag, fall back to any cached snapshots,
and finish (`finally`: loading and in-flight flags cleared). -/
def loadOuterCatch (now : Nat) (e : LoadError) (s : ProviderState) :
    LoadResult :=
  let a := getCachedData s.cache CONSENT_CACHE_KEY now
  let b := getCachedData a.2 ARCHIVED_CONSENT_CACHE_KEY now
  ⟨{ s with connectionError := true,
            cache := b.2,
            consentimientos := publishIfNonempty a.1 s.consentimientos,
            consentimientosArchivados :=
              publishIfNonempty b.1 s.consentimientosArchivados,
            loading := false, isRetrying := false }, true, some e⟩

/-- The disconnected branch of `loadConsentimientos` (lines 109–147):
set the connection-error flag; when attempts remain and the call is not
a manual retry, compute the jittered backoff delay, bump the attempt
count and schedule a background retry timer; a failed manual retry
resets the attempt count instead.  Loading and in-flight flags are
cleared on the way out. -/
def loadDisconnected (isManualRetry : Bool) (env : LoadEnv)
    (s : ProviderState) : LoadResult :=
  let s := { s with connectionError := true }
  if s.retryCount < MAX_RETRIES ∧ isManualRetry = false then
    let delay := getRetryDelay s.retryCount env.rand
    let s := { s with retryCount := s.retryCount + 1,
                      pendingTimers := s.pendingTimers ++ [delay] }
    ⟨{ s with loading := false, isRetrying := false }, true, none⟩
  else
    let s := if isManualRetry then { s with retryCount := 0 } else s
    ⟨{ s with loading := false, isRetrying := false }, true, none⟩

/-- The connected branch of `loadConsentimientos` (lines 149–298): clear
the error state following a successful check, then run the two fetch
legs.

* Active leg `AbortError` → `activesTimeout` logged via the outer catch;
  an active-leg supabase error is rethrown unchanged.
* Archived leg `AbortError`: the recovery handler (lines 278–288) means
  to commit and cache the actives before reporting the archived timeout,
  but `transformarDatos` is a `const` declared inside the `try` block and
  is not in scope in the attached `catch` block, so the very first
  statement of that handler throws a `ReferenceError`; nothing is
  committed and the `ReferenceError` is what propagates to the outer
  catch.  An archived-leg supabase error is rethrown unchanged, likewise
  committing nothing.
* Both legs succeed: transform both row sets, cache both lists, publish
  both lists. -/
def loadConnected (env : LoadEnv) (s : ProviderState) : LoadResult :=
  let s := { s with connectionError := false, retryCount := 0 }
  match env.actives with
  | .abort => loadOuterCatch env.now .activesTimeout s
  | .err m => loadOuterCatch env.now (.remoteActives m) s
  | .rows dataActivos =>
      match env.archived with
      | .abort => loadOuterCatch env.now .referenceError s
      | .err m => loadOuterCatch env.now (.remoteArchived m) s
      | .rows dataArchivados =>
          let consentimientosActivos := transformarDatos (some dataActivos)
          let archivadosLista := transformarDatos (some dataArchivados)
          let cch := cacheData s.cache CONSENT_CACHE_KEY
            (some consentimientosActivos) CONSENT_CACHE_TTL env.now
          let cch := cacheData cch ARCHIVED_CONSENT_CACHE_KEY
            (some archivadosLista) CONSENT_CACHE_TTL env.now
          let s := { s with cache := cch,
                            consentimientos := consentimientosActivos,
                            consentimientosArchivados := archivadosLista }
          ⟨{ s with loading := false, isRetrying := false }, true, none⟩

/-- The body of a load cycle once past the single-in-flight guard
(lines 81–315): mark the cycle in flight, serve cached snapshots, race
the connectivity check against the 60s ceiling (`connSlow` is the race
being lost, in which case the still-pending check does not update the
module state at decision time), then branch. -/
def runLoadCycle (isManualRetry : Bool) (env : LoadEnv)
    (s : ProviderState) : LoadResult :=
  let s := { s with isRetrying := true,
                    loading := if isManualRetry then true else s.loading,
                    lastConnectionAttempt := some env.now }
  let s := serveCachedSnapshots env.now s
  let chk := checkSupabaseConnection env.connEnv env.now s.conn
  let isConnected := if env.connSlow then false else chk.connected
  let s := if env.connSlow then s else { s with conn := chk.st }
  if isConnected then loadConnected env s
  else loadDisconnected isManualRetry env s

/-- `loadConsentimientos(isManualRetry)` (lines 78–316).  The
single-in-flight guard drops a non-manual call while a cycle is running. -/
def loadConsentimientos (isManualRetry : Bool) (env : LoadEnv)
    (s : ProviderState) : LoadResult :=
  if s.isRetrying ∧ isManualRetry = false then ⟨s, false, none⟩
  else runLoadCycle isManualRetry env s

/-- `retryConnection()` (lines 319–324): reset the attempt count, clear
the connection-error flag, then start a manual load. -/
def retryConnection (env : LoadEnv) (s : ProviderState) : LoadResult :=
  loadConsentimientos true env
    { s with retryCount := 0, connectionError := false }

/-- The realtime-subscription callback (lines 337–354): check
connectivity; when connected, clear the in-flight flag and reload
(the source comment reads "Resetear para permitir recarga por evento"). -/
def onConsentsRealtime (env : LoadEnv) (s : ProviderState) : LoadResult :=
  let chk := checkSupabaseConnection env.connEnv env.now s.conn
  let s := { s with conn := chk.st }
  if chk.connected then
    loadConsentimientos false env { s with isRetrying := false }
  else ⟨s, false, none⟩

/-- The `online` event handler (lines 374–379): reset the attempt count,
clear the in-flight flag, reload. -/
def handleOnline (env : LoadEnv) (s : ProviderState) : LoadResult :=
  loadConsentimientos false env
    { s with retryCount := 0, isRetrying := false }

/-- The `visibilitychange` handler (lines 384–397): when the page became
visible, check connectivity and reload only when connected and no cycle
is in flight. -/
def handleVisibilityChange (visible : Bool) (env : LoadEnv)
    (s : ProviderState) : LoadResult :=
  if visible then
    let chk := checkSupabaseConnection env.connEnv env.now s.conn
    let s := { s with conn := chk.st }
    if chk.connected ∧ s.isRetrying = false then
      loadConsentimientos false env s
    else ⟨s, false, none⟩
  else ⟨s, false, none⟩

/-- The background-retry timer body (lines 125–134): when the scheduled
timeout fires it clears the in-flight flag before reloading.  The fired
timer is no longer pending. -/
def fireScheduledRetry (env : LoadEnv) (s : ProviderState) : LoadResult :=
  loadConsentimientos false env
    { s with isRetrying := false, pendingTimers := s.pendingTimers.drop 1 }

/-! ### Lookups and write operations (getConsentimiento,
addConsentimiento, archivarConsentimiento) -/

/-- `getConsentimiento(id)`: first match in the active list, else first
match in the archived list. -/
def getConsentimiento (id : String) (s : ProviderState) :
    Option Consentimiento :=
  match s.consentimientos.find? (fun c => c.id == id) with
  | some c => some c
  | none => s.consentimientosArchivados.find? (fun c => c.id == id)

/-- Input of `addConsentimiento`: a `Consentimiento` without `id`,
`codigo`, `fechaCreacion` and `archivado`. -/
structure NewConsentimiento where
  cliente : ClientInfo
  tutor : Option TutorInfo
  informacionSalud : String
  artistaSeleccionado : String
  firma : String
deriving DecidableEq, Repr

/-- Outcome of the artist-id lookup: the id, a supabase error, or the
30s `AbortError`. -/
inductive ArtistResult where
  | found (artistId : String)
  | err (message : String)
  | abort
deriving DecidableEq, Repr

/-- Outcome of the insert: the created row id, an empty `data` payload,
a supabase error, or the 45s `AbortError`. -/
inductive InsertResult where
  | ok (newId : String)
  | emptyData
  | err (message : String)
  | abort
deriving DecidableEq, Repr

/-- Typed failures of `addConsentimiento`. -/
inductive AddError where
  | connectivity
  | artistNotFound (message : String)
  | artistTimeout
  | insertFailed (message : String)
  | insertNoData
  | insertTimeout
deriving DecidableEq, Repr

/-- Environment of one `addConsentimiento` run: the initial connectivity
check, the generated code and creation date, the two remote outcomes, and
the re-check performed by the catch handler (its own clock and oracle). -/
structure AddEnv where
  now : Nat
  connEnv : ConnEnv
  codigo : String
  fechaCreacion : String
  artist : ArtistResult
  insert : InsertResult
  now2 : Nat
  connEnv2 : ConnEnv

/-- Result of `addConsentimiento`: the returned record or typed error,
the post state, whether the artist lookup and the insert were attempted,
and how many network calls the leading connectivity check made. -/
structure AddResult where
  res : Except AddError Consentimiento
  st : ProviderState
  artistLookupAttempted : Bool
  insertAttempted : Bool
  connCheckCalls : Nat
deriving Repr

/-- The catch handler of `addConsentimiento` (lines 538–546): re-check
connectivity and set the connection-error flag when it now fails, then
rethrow. -/
def addCatch (env : AddEnv) (e : AddError) (s : ProviderState)
    (artistAttempted insertAttempted : Bool) (calls : Nat) : AddResult :=
  let chk := checkSupabaseConnection env.connEnv2 env.now2 s.conn
  let s := { s with conn := chk.st,
                    connectionError :=
                      if chk.connected then s.connectionError else true }
  ⟨.error e, s, artistAttempted, insertAttempted, calls⟩

/-- `addConsentimiento(newConsentimiento)` (lines 410–547): connectivity
check first (the debounced `checkSupabaseConnection`, so it may be served
from a result up to 10s old); on `false`, throw the connectivity error
before the artist lookup.  Otherwise resolve the artist id (30s timeout),
insert (45s timeout), and on success prepend the new record to the active
list and refresh the active cache entry before returning it. -/
def addConsentimiento (env : AddEnv) (nc : NewConsentimiento)
    (s : ProviderState) : AddResult :=
  let chk := checkSupabaseConnection env.connEnv env.now s.conn
  let s := { s with conn := chk.st }
  if chk.connected = false then
    ⟨.error .connectivity, s, false, false, chk.netCalls⟩
  else
    match env.artist with
    | .abort => addCatch env .artistTimeout s true false chk.netCalls
    | .err m => addCatch env (.artistNotFound m) s true false chk.netCalls
    | .found _artistId =>
        match env.insert with
        | .abort => addCatch env .insertTimeout s true true chk.netCalls
        | .err m => addCatch env (.insertFailed m) s true true chk.netCalls
        | .emptyData => addCatch env .insertNoData s true true chk.netCalls
        | .ok newId =>
            let consentimientoCompleto : Consentimiento :=
              { id := newId
                codigo := env.codigo
                fechaCreacion := env.fechaCreacion
                cliente := nc.cliente
                tutor := nc.tutor
                informacionSalud := nc.informacionSalud
                artistaSeleccionado := nc.artistaSeleccionado
                firma := nc.firma
                archivado := false }
            let updated := consentimientoCompleto :: s.consentimientos
            let s := { s with
              consentimientos := updated,
              cache := cacheData s.cache CONSENT_CACHE_KEY (some updated)
                CONSENT_CACHE_TTL env.now }
            ⟨.ok consentimientoCompleto, s, true, true, chk.netCalls⟩

/-- Outcome of the `archivar_consentimiento` RPC: success, a supabase
error, or the 40s `AbortError`. -/
inductive RpcResult where
  | ok
  | err (message : String)
  | abort
deriving DecidableEq, Repr

/-- Typed failures of `archivarConsentimiento`. -/
inductive ArchiveError where
  | connectivity
  | notFound
  | remote (message : String)
  | timeout
deriving DecidableEq, Repr

/-- Environment of one `archivarConsentimiento` run. -/
structure ArchiveEnv where
  now : Nat
  connEnv : ConnEnv
  rpc : RpcResult
  now2 : Nat
  connEnv2 : ConnEnv

/-- Result of `archivarConsentimiento`: `none` on success, the post
state, and whether the remote RPC was attempted. -/
structure ArchiveResult where
  res : Option ArchiveError
  st : ProviderState
  rpcAttempted : Bool
deriving DecidableEq, Repr

/-- The catch handler of `archivarConsentimiento` (lines 619–629):
re-check connectivity, flag the error state when it now fails, rethrow. -/
def archiveCatch (env : ArchiveEnv) (e : ArchiveError) (s : ProviderState)
    (rpcAttempted : Bool) : ArchiveResult :=
  let chk := checkSupabaseConnection env.connEnv2 env.now2 s.conn
  let s := { s with conn := chk.st,
                    connectionError :=
                      if chk.connected then s.connectionError else true }
  ⟨some e, s, rpcAttempted⟩

/-- `archivarConsentimiento(id)` (lines 561–630): connectivity check
first; look the record up (active list first, then archived); throw
not-found when absent; otherwise move it locally — drop it from the
active list, prepend the archived copy, write both lists through
`cacheData` (whose empty-array guard skips an emptied active list) — and
only then attempt the remote RPC under its 40s timeout.  A remote error
or timeout is rethrown after the catch handler; the local move is never
rolled back. -/
def archivarConsentimiento (env : ArchiveEnv) (id : String)
    (s : ProviderState) : ArchiveResult :=
  let chk := checkSupabaseConnection env.connEnv env.now s.conn
  let s := { s with conn := chk.st }
  if chk.connected = false then
    ⟨some .connectivity, s, false⟩
  else
    match getConsentimiento id s with
    | none => archiveCatch env .notFound s false
    | some consentimiento =>
        let consentimientoArchivado := { consentimiento with archivado := true }
        let nuevosActivos := s.consentimientos.filter (fun c => c.id != id)
        let nuevosArchivados :=
          consentimientoArchivado :: s.consentimientosArchivados
        let s := { s with consentimientos := nuevosActivos,
                          consentimientosArchivados := nuevosArchivados }
        let cch := cacheData s.cache CONSENT_CACHE_KEY (some nuevosActivos)
          CONSENT_CACHE_TTL env.now
        let cch := cacheData cch ARCHIVED_CONSENT_CACHE_KEY
          (some nuevosArchivados) CONSENT_CACHE_TTL env.now
        let s := { s with cache := cch }
        match env.rpc with
        | .ok => ⟨none, s, true⟩
        | .err m => archiveCatch env (.remote m) s true
        | .abort => archiveCatch env .timeout s true

/-! ### Concrete fixtures shared by witnesses and counterexamples -/

def clientInfo1 : ClientInfo :=
  { nombre := "Ana", apellidos := "P", edad := 30, rut := "1-9",
    fechaNacimiento := "1990-01-01", direccion := "Calle 1",
    telefono := "123", email := "a@b.c", confirmacionDatos := true,
    informacionSalud := none }

def row1 : RawRow :=
  { id := "id1", code := "TCF-AAAAA-BBBBB", created_at := "2024-01-01",
    client_info := some clientInfo1, tutor_info := none,
    artistName := some "Artista", client_signature := "sig",
    archived := false }

/-- `transformarItem row1` as an explicit record. -/
def consent1 : Consentimiento :=
  { id := "id1", codigo := "TCF-AAAAA-BBBBB", fechaCreacion := "2024-01-01",
    cliente := clientInfo1, tutor := none, informacionSalud := "",
    artistaSeleccionado := "Artista", firma := "sig", archivado := false }

def consent2 : Consentimiento := { consent1 with id := "id2" }

/-- Freshly mounted provider: empty collections, empty cache, no previous
connectivity result. -/
def initialState : ProviderState :=
  { consentimientos := [], consentimientosArchivados := [], loading := true,
    connectionError := false, retryCount := 0, lastConnectionAttempt := none,
    isRetrying := false, cache := emptyCache,
    conn := ⟨false, false, false, 0⟩, pendingTimers := [] }

/-- A network oracle on which every probe succeeds at once. -/
def envAllOk : ConnEnv := ⟨[true], fun _ => .ok⟩

/-- A healthy load environment (both fetch legs return `[row1]` / `[]`). -/
def envHealthy : LoadEnv :=
  { now := 20000, connEnv := envAllOk, connSlow := false, rand := 0,
    actives := .rows [row1], archived := .rows [] }

/-- Load environment of the C1 scenario: the active fetch returns `row1`,
the archived fetch hits its 60s timeout (`AbortError`). -/
def envArchivedAbort : LoadEnv :=
  { envHealthy with archived := .abort }

/-! ### Helper lemmas about the load cycle -/

theorem loadOuterCatch_started (now : Nat) (e : LoadError)
    (s : ProviderState) : (loadOuterCatch now e s).started = true := rfl

theorem loadConnected_started (env : LoadEnv) (s : ProviderState) :
    (loadConnected env s).started = true := by
  unfold loadConnected
  rcases env.actives with _ | _ | _ <;> try rfl
  rcases env.archived with _ | _ | _ <;> rfl

theorem loadDisconnected_started (isM : Bool) (env : LoadEnv)
    (s : ProviderState) : (loadDisconnected isM env s).started = true := by
  simp only [loadDisconnected]
  split <;> rfl

theorem runLoadCycle_started (isM : Bool) (env : LoadEnv)
    (s : ProviderState) : (runLoadCycle isM env s).started = true := by
  simp only [runLoadCycle]
  repeat' split
  all_goals first
    | exact loadConnected_started _ _
    | exact loadDisconnected_started _ _ _

/-- Any load call that passes the single-in-flight guard runs a cycle. -/
theorem loadConsentimientos_started (isM : Bool) (env : LoadEnv)
    (s : ProviderState) (h : s.isRetrying = false ∨ isM = true) :
    (loadConsentimientos isM env s).started = true := by
  unfold loadConsentimientos
  rw [if_neg (by rcases h with h | h <;> simp [h])]
  exact runLoadCycle_started _ _ _

theorem loadOuterCatch_pendingTimers (now : Nat) (e : LoadError)
    (s : ProviderState) :
    (loadOuterCatch now e s).st.pendingTimers = s.pendingTimers := rfl

theorem loadConnected_pendingTimers (env : LoadEnv) (s : ProviderState) :
    (loadConnected env s).st.pendingTimers = s.pendingTimers := by
  unfold loadConnected
  rcases env.actives with _ | _ | _ <;> try rfl
  rcases env.archived with _ | _ | _ <;> rfl

theorem loadDisconnected_manual_pendingTimers (env : LoadEnv)
    (s : ProviderState) :
    (loadDisconnected true env s).st.pendingTimers = s.pendingTimers := by
  simp only [loadDisconnected]
  rw [if_neg (by simp)]
  simp

theorem serveCachedSnapshots_pendingTimers (now : Nat) (s : ProviderState) :
    (serveCachedSnapshots now s).pendingTimers = s.pendingTimers := rfl

/-- A manual load cycle never schedules a new backoff timer and never
clears an existing one. -/
theorem loadConsentimientos_manual_pendingTimers (env : LoadEnv)
    (s : ProviderState) :
    (loadConsentimientos true env s).st.pendingTimers = s.pendingTimers := by
  unfold loadConsentimientos
  rw [if_neg (by simp)]
  simp only [runLoadCycle]
  repeat' split
  all_goals simp [loadConnected_pendingTimers,
    loadDisconnected_manual_pendingTimers, serveCachedSnapshots_pendingTimers]

/-! ### Claim C1 -/

/-- C1 (code-bug evaluation): in a load cycle whose connectivity check
succeeds, whose active fetch returns `row1` and whose archived fetch
times out, the recovery handler dereferences `transformarDatos` outside
its scope (it is a `const` of the `try` block, invisible in the attached
`catch` block) and so raises a `ReferenceError` as its first statement:
contrary to the claim, the transformed active records (`[consent1]`) are
neither published to the observable active collection nor written to the
active cache key, and the logged error is the `ReferenceError`, not the
archived-timeout error. -/
theorem C1_archived_timeout_reference_error :
    (loadConsentimientos false envArchivedAbort initialState).logged =
      some .referenceError ∧
    (loadConsentimientos false envArchivedAbort initialState).st.consentimientos
      = [] ∧
    transformarDatos (some [row1]) = [consent1] ∧
    (getCachedData
      (loadConsentimientos false envArchivedAbort initialState).st.cache
      CONSENT_CACHE_KEY envArchivedAbort.now).1 = none :=
  ⟨rfl, rfl, rfl, rfl⟩

/-! ### Claim C3 -/

/-- A provider state with a load cycle in flight. -/
def busyState : ProviderState := { initialState with isRetrying := true }

/-- C3 counterexample: a network-restored trigger arriving while a load
cycle is in flight is not dropped — the handler clears the in-flight
flag before calling the load, so a second cycle starts. -/
theorem C3_counterexample :
    busyState.isRetrying = true ∧
    (handleOnline envHealthy busyState).started = true :=
  ⟨rfl, rfl⟩

/-- C3 (amended): while a load cycle is in flight, a plain non-manual
load call is dropped by the single-in-flight guard without changing the
provider state, and the visibility trigger likewise drops; but the
network-restored trigger and the scheduled-retry trigger always start a
cycle (they clear the in-flight flag first), and the realtime-push
trigger starts one exactly when its own connectivity check succeeds —
those triggers are not dropped while busy. -/
theorem C3_in_flight_triggers (env : LoadEnv) (s : ProviderState)
    (h : s.isRetrying = true) :
    (loadConsentimientos false env s).started = false ∧
    (loadConsentimientos false env s).st = s ∧
    (handleVisibilityChange true env s).started = false ∧
    (handleOnline env s).started = true ∧
    (onConsentsRealtime env s).started =
      (checkSupabaseConnection env.connEnv env.now s.conn).connected ∧
    (fireScheduledRetry env s).started = true := by
  have hdrop : loadConsentimientos false env s = ⟨s, false, none⟩ := by
    unfold loadConsentimientos
    rw [if_pos (by simp [h])]
  refine ⟨by rw [hdrop], by rw [hdrop], ?_, ?_, ?_, ?_⟩
  · simp [handleVisibilityChange, h]
  · exact loadConsentimientos_started false env _ (Or.inl rfl)
  · by_cases hc :
      (checkSupabaseConnection env.connEnv env.now s.conn).connected = true
    · simp only [onConsentsRealtime, hc, if_true]
      exact loadConsentimientos_started false env _ (Or.inl rfl)
    · have hc' :
          (checkSupabaseConnection env.connEnv env.now s.conn).connected =
            false := by simpa using hc
      simp [onConsentsRealtime, hc']
  · exact loadConsentimientos_started false env _ (Or.inl rfl)

theorem C3_witness :
    busyState.isRetrying = true ∧
    (loadConsentimientos false envHealthy busyState).started = false ∧
    (handleVisibilityChange true envHealthy busyState).started = false ∧
    (fireScheduledRetry envHealthy busyState).started = true :=
  ⟨rfl, (C3_in_flight_triggers envHealthy busyState rfl).1,
    (C3_in_flight_triggers envHealthy busyState rfl).2.2.1,
    (C3_in_flight_triggers envHealthy busyState rfl).2.2.2.2.2⟩

/-! ### Claim C4 -/

/-- A connectivity state whose cached result (`true`, taken at 15000) is
still inside the 10s debounce TTL at time 20000. -/
def connFreshTrue : ConnState :=
  { offlineMode := false, networkUnreachable := false,
    lastConnected := true, lastTimestamp := 15000 }

def stateCachedConnected : ProviderState :=
  { initialState with conn := connFreshTrue }

def newConsent1 : NewConsentimiento :=
  { cliente := clientInfo1, tutor := none, informacionSalud := "",
    artistaSeleccionado := "Artista", firma := "sig" }

/-- An `addConsentimiento` environment whose network is entirely dead
(every reachability probe fails) but whose remote legs would succeed. -/
def addEnvDeadNet : AddEnv :=
  { now := 20000, connEnv := envAllFail, codigo := "TCF-AAAAA-CCCCC",
    fechaCreacion := "2024-01-02", artist := .found "art1",
    insert := .ok "new1", now2 := 20000, connEnv2 := envAllFail }

/-- C4 counterexample: with a 5s-old cached `true` result,
`addConsentimiento`'s leading connectivity check issues zero network
calls and reports connected — even though a fresh probe under the same
(dead) network reports disconnected — and the call proceeds to the
identifier lookup: the check is the debounced one, not a fresh one. -/
theorem C4_counterexample :
    (addConsentimiento addEnvDeadNet newConsent1
      stateCachedConnected).connCheckCalls = 0 ∧
    (checkSupabaseConnection addEnvDeadNet.connEnv addEnvDeadNet.now
      { connFreshTrue with lastTimestamp := 0 }).connected = false ∧
    (addConsentimiento addEnvDeadNet newConsent1
      stateCachedConnected).artistLookupAttempted = true :=
  ⟨rfl, rfl, rfl⟩

/-- C4 (amended): `addConsentimiento` runs the debounced connectivity
check before anything else (the check may be answered from a result up
to 10s old instead of a fresh probe), and whenever that check reports
disconnected the call fails fast with the connectivity error, attempting
neither the identifier lookup nor the insert, and leaving the collections
and the cache untouched. -/
theorem C4_disconnected_fails_fast (env : AddEnv) (nc : NewConsentimiento)
    (s : ProviderState)
    (h : (checkSupabaseConnection env.connEnv env.now s.conn).connected =
      false) :
    (addConsentimiento env nc s).res = .error .connectivity ∧
    (addConsentimiento env nc s).artistLookupAttempted = false ∧
    (addConsentimiento env nc s).insertAttempted = false ∧
    (addConsentimiento env nc s).st.consentimientos = s.consentimientos ∧
    (addConsentimiento env nc s).st.cache = s.cache := by
  simp [addConsentimiento, h]

/-- A connectivity state in which the offline-mode flag is set and the
debounce TTL has lapsed. -/
def connOfflineStale : ConnState :=
  { offlineMode := true, networkUnreachable := false,
    lastConnected := false, lastTimestamp := 0 }

def stateOffline : ProviderState := { initialState with conn := connOfflineStale }

theorem C4_witness :
    (checkSupabaseConnection addEnvDeadNet.connEnv addEnvDeadNet.now
      stateOffline.conn).connected = false ∧
    (addConsentimiento addEnvDeadNet newConsent1 stateOffline).res =
      .error .connectivity ∧
    (addConsentimiento addEnvDeadNet newConsent1
      stateOffline).artistLookupAttempted = false :=
  ⟨rfl,
    (C4_disconnected_fails_fast addEnvDeadNet newConsent1 stateOffline rfl).1,
    (C4_disconnected_fails_fast addEnvDeadNet newConsent1 stateOffline
      rfl).2.1⟩

/-! ### Claim C5 -/

/-- A provider state carrying a pending scheduled-backoff timer and a
load cycle in flight. -/
def statePendingTimer : ProviderState :=
  { initialState with
      pendingTimers := [3000], retryCount := 3,
      connectionError := true, isRetrying := true }

/-- C5 counterexample: the manual retry does not cancel the pending
scheduled-backoff timer — the source stores no handle for the `setTimeout`
it created — so the timer is still pending after `retryConnection`. -/
theorem C5_counterexample :
    statePendingTimer.pendingTimers = [3000] ∧
    (retryConnection envHealthy statePendingTimer).st.pendingTimers =
      [3000] :=
  ⟨rfl, rfl⟩

/-- C5 (amended): a manual retry resets the attempt count to 0 and
clears the connection-error state before the connectivity probe (the
load is invoked on exactly that state), and it bypasses the
single-in-flight guard, so it runs immediately even while a scheduled
cycle is in flight; it does not cancel pending scheduled-backoff timers:
the pending-timer set is unchanged by the whole retry. -/
theorem C5_manual_retry (env : LoadEnv) (s : ProviderState) :
    retryConnection env s =
      loadConsentimientos true env
        { s with retryCount := 0, connectionError := false } ∧
    (retryConnection env s).started = true ∧
    (retryConnection env s).st.pendingTimers = s.pendingTimers :=
  ⟨rfl, loadConsentimientos_started true env _ (Or.inr rfl),
    loadConsentimientos_manual_pendingTimers env _⟩

/-! ### Further cache lemmas (for the archive claims) -/

theorem lookupKey_setKey_ne {α : Type} (l : List (String × CacheItem α))
    (k k' : String) (v : CacheItem α) (h : k' ≠ k) :
    lookupKey (setKey l k' v) k = lookupKey l k := by
  have hbeq : (k' == k) = false := beq_eq_false_iff_ne.mpr h
  induction l with
  | nil => simp [setKey, lookupKey, List.find?, hbeq]
  | cons p rest ih =>
      obtain ⟨k0, v0⟩ := p
      by_cases h0 : k0 = k'
      · subst h0
        simp [setKey, lookupKey, List.find?, hbeq]
      · simp only [setKey, if_neg h0, lookupKey, List.find?]
        cases hk : (k0 == k) with
        | true => rfl
        | false => simpa [lookupKey, List.find?] using ih

/-- A freshly written entry is returned while unexpired (helper shared by
the archive claims). -/
theorem cacheData_get_within {α : Type} (c : CacheState α) (key : String)
    (x : α) (xs : List α) (ttl now t : Nat) (hle : t ≤ now + ttl * 1000) :
    (getCachedData (cacheData c key (some (x :: xs)) ttl now) key t).1 =
      some (x :: xs) := by
  simp [cacheData, getCachedData, lookupKey_setKey, hle]

/-- Writing under one key does not change what a read under another key
returns. -/
theorem getCachedData_cacheData_other {α : Type} (c : CacheState α)
    (k k' : String) (d : Option (List α)) (ttl now t : Nat) (h : k' ≠ k) :
    (getCachedData (cacheData c k' d ttl now) k t).1 =
      (getCachedData c k t).1 := by
  rcases d with _ | (_ | ⟨x, xs⟩)
  · rfl
  · rfl
  · have hmem : lookupKey (setKey c.mem k' ⟨x :: xs, now, now + ttl * 1000⟩) k
        = lookupKey c.mem k := lookupKey_setKey_ne _ _ _ _ h
    have hls : lookupKey (setKey c.ls k' ⟨x :: xs, now, now + ttl * 1000⟩) k
        = lookupKey c.ls k := lookupKey_setKey_ne _ _ _ _ h
    simp only [cacheData, getCachedData, getFromLS, hmem, hls]
    cases hm : lookupKey c.mem k with
    | none =>
        cases hl : lookupKey c.ls k with
        | none => simp [hm, hl]
        | some it2 => by_cases h2 : t ≤ it2.expiry <;> simp [hm, hl, h2]
    | some it =>
        by_cases h1 : t ≤ it.expiry
        · simp [hm, h1]
        · cases hl : lookupKey c.ls k with
          | none => simp [hm, hl, h1]
          | some it2 => by_cases h2 : t ≤ it2.expiry <;> simp [hm, hl, h1, h2]

theorem mem_filter_id_ne (l : List Consentimiento) (id : String) :
    ∀ x ∈ l.filter (fun c => c.id != id), x.id ≠ id := by
  intro x hx
  have h2 := (List.mem_filter.mp hx).2
  simpa using h2

/-! ### Claims C9 and C10 -/

/-- An archive environment whose RPC leg hits its 40s timeout; the
connectivity checks run against a healthy probe oracle. -/
def archEnvAbort : ArchiveEnv :=
  { now := 20000, connEnv := envAllOk, rpc := .abort,
    now2 := 20000, connEnv2 := envAllOk }

/-- C9 (amended): when the record is found in the active collection and
the remote RPC times out, the caller receives the timeout error after
the local move already happened: the record is gone from the in-memory
active list, the archived copy heads the archived list, both without
rollback; the emptied-or-filtered active list is also the cached one —
but only when it is non-empty, because the `cacheData` empty-array guard
skips writing an emptied active list. -/
theorem C9_archive_local_first_on_timeout (env : ArchiveEnv)
    (s : ProviderState) (id : String) (c : Consentimiento)
    (hconn : (checkSupabaseConnection env.connEnv env.now s.conn).connected =
      true)
    (hfind : s.consentimientos.find? (fun x => x.id == id) = some c)
    (habort : env.rpc = .abort) :
    (archivarConsentimiento env id s).res = some .timeout ∧
    (archivarConsentimiento env id s).rpcAttempted = true ∧
    (archivarConsentimiento env id s).st.consentimientos =
      s.consentimientos.filter (fun x => x.id != id) ∧
    (∀ x ∈ (archivarConsentimiento env id s).st.consentimientos,
      x.id ≠ id) ∧
    (archivarConsentimiento env id s).st.consentimientosArchivados =
      { c with archivado := true } :: s.consentimientosArchivados ∧
    (s.consentimientos.filter (fun x => x.id != id) ≠ [] →
      (getCachedData (archivarConsentimiento env id s).st.cache
        CONSENT_CACHE_KEY env.now).1 =
        some (s.consentimientos.filter (fun x => x.id != id))) := by
  have hred :
      (archivarConsentimiento env id s).st.consentimientos =
          s.consentimientos.filter (fun x => x.id != id) ∧
        (archivarConsentimiento env id s).res = some .timeout ∧
        (archivarConsentimiento env id s).rpcAttempted = true ∧
        (archivarConsentimiento env id s).st.consentimientosArchivados =
          { c with archivado := true } :: s.consentimientosArchivados ∧
        (archivarConsentimiento env id s).st.cache =
          cacheData
            (cacheData s.cache CONSENT_CACHE_KEY
              (some (s.consentimientos.filter (fun x => x.id != id)))
              CONSENT_CACHE_TTL env.now)
            ARCHIVED_CONSENT_CACHE_KEY
            (some ({ c with archivado := true } ::
              s.consentimientosArchivados))
            CONSENT_CACHE_TTL env.now := by
    simp [archivarConsentimiento, getConsentimiento, archiveCatch,
      hconn, hfind, habort]
  refine ⟨hred.2.1, hred.2.2.1, hred.1, ?_, hred.2.2.2.1, ?_⟩
  · rw [hred.1]
    exact mem_filter_id_ne s.consentimientos id
  · intro hne
    rw [hred.2.2.2.2]
    rcases hl : s.consentimientos.filter (fun x => x.id != id) with _ | ⟨x, xs⟩
    · exact absurd hl hne
    · rw [getCachedData_cacheData_other _ _ _ _ _ _ _ (by decide)]
      rw [hl]
      exact cacheData_get_within s.cache CONSENT_CACHE_KEY x xs
        CONSENT_CACHE_TTL env.now env.now (Nat.le_add_right _ _)

/-- A state whose only active record is `consent1` and whose cached
active list (written at time 0) also holds just `consent1`; the previous
connectivity result is fresh. -/
def stateSingleActive : ProviderState :=
  { initialState with
      consentimientos := [consent1],
      cache := cacheData emptyCache CONSENT_CACHE_KEY (some [consent1])
        CONSENT_CACHE_TTL 0,
      conn := connFreshTrue }

/-- C9 counterexample: archiving the only active record while the remote
RPC times out: the caller receives the timeout and the record has left
the in-memory active list, but the `cacheData` empty-array guard skipped
the write of the emptied active list, so the cached active collection
still holds the archived record — it is not absent from the cache. -/
theorem C9_counterexample :
    (archivarConsentimiento archEnvAbort "id1" stateSingleActive).res =
      some .timeout ∧
    (archivarConsentimiento archEnvAbort "id1"
      stateSingleActive).st.consentimientos = [] ∧
    (getCachedData
      (archivarConsentimiento archEnvAbort "id1" stateSingleActive).st.cache
      CONSENT_CACHE_KEY archEnvAbort.now).1 = some [consent1] :=
  ⟨rfl, rfl, rfl⟩

/-- Two active records, fresh positive connectivity. -/
def stateTwoActive : ProviderState :=
  { initialState with
      consentimientos := [consent1, consent2],
      conn := connFreshTrue }

theorem C9_witness :
    (archivarConsentimiento archEnvAbort "id1" stateTwoActive).res =
      some .timeout ∧
    (archivarConsentimiento archEnvAbort "id1"
      stateTwoActive).st.consentimientos = [consent2] ∧
    (getCachedData
      (archivarConsentimiento archEnvAbort "id1" stateTwoActive).st.cache
      CONSENT_CACHE_KEY archEnvAbort.now).1 = some [consent2] := by
  refine ⟨(C9_archive_local_first_on_timeout archEnvAbort stateTwoActive
      "id1" consent1 rfl rfl rfl).1, ?_, ?_⟩
  · rw [(C9_archive_local_first_on_timeout archEnvAbort stateTwoActive
      "id1" consent1 rfl rfl rfl).2.2.1]
    rfl
  · rw [(C9_archive_local_first_on_timeout archEnvAbort stateTwoActive
      "id1" consent1 rfl rfl rfl).2.2.2.2.2 (by decide)]
    rfl

/-- C10: once the connectivity check succeeds, archiving an id present
in neither collection throws the not-found error before any mutation:
both collections and the whole cache (hence both cache entries) are
exactly as before, and the remote RPC is never attempted. -/
theorem C10_archive_not_found (env : ArchiveEnv) (s : ProviderState)
    (id : String)
    (hconn : (checkSupabaseConnection env.connEnv env.now s.conn).connected =
      true)
    (hact : s.consentimientos.find? (fun x => x.id == id) = none)
    (harch : s.consentimientosArchivados.find? (fun x => x.id == id) = none) :
    (archivarConsentimiento env id s).res = some .notFound ∧
    (archivarConsentimiento env id s).rpcAttempted = false ∧
    (archivarConsentimiento env id s).st.consentimientos =
      s.consentimientos ∧
    (archivarConsentimiento env id s).st.consentimientosArchivados =
      s.consentimientosArchivados ∧
    (archivarConsentimiento env id s).st.cache = s.cache := by
  simp [archivarConsentimiento, getConsentimiento, archiveCatch,
    hconn, hact, harch]

theorem C10_witness :
    (checkSupabaseConnection archEnvAbort.connEnv archEnvAbort.now
      stateTwoActive.conn).connected = true ∧
    (archivarConsentimiento archEnvAbort "zzz" stateTwoActive).res =
      some .notFound ∧
    (archivarConsentimiento archEnvAbort "zzz" stateTwoActive).st.cache =
      stateTwoActive.cache :=
  ⟨rfl,
    (C10_archive_not_found archEnvAbort stateTwoActive "zzz" rfl rfl rfl).1,
    (C10_archive_not_found archEnvAbort stateTwoActive "zzz" rfl rfl
      rfl).2.2.2.2⟩

end Replitar
